import Mathlib

/-!
Shallow embedding of `generateur_ORASP.py`, a random-instance generator for a
surgical scheduling model (ORASP).  Randomness is made explicit: every call to
`random.uniform`, `random.randint` or `np.random.lognormal` in the source is
replaced by an oracle function giving the sampled value, and the guarantees of
the sampling primitives (for instance that `random.randint(a, b)` lies in
`[a, b]`, or that `random.uniform(0, 1)` is `< 1`) appear as hypotheses of the
theorems.  Real-valued samples are represented by rationals.  List indexing
`l[i]` is total here (`Option`/default-based) where Python would raise; the
theorems only use it at indices where the Python program indexes in range,
except for `pyIndex`, which also models Python's negative-index wrap-around.
-/

/-- Oracle bundling one instance's random draws: `roomU o r` is the
`random.uniform(0, 1)` sample for operation `o` and room `r`; `shift s` the
`random.randint(2, 2)` shift-type draw for surgeon `s`; `prep o`, `surg o`,
`clean o` the duration draws for operation `o`; `typeOf c` the
`random.randint(0, nb_types - 1)` specialty draw for surgeon `c`; and
`setup t1 t2` the `random.randint(0, max_setup_time)` draw for the ordered
type pair `(t1, t2)`. -/
structure Randomness where
  roomU : Nat → Nat → ℚ
  shift : Nat → Nat
  prep : Nat → Int
  surg : Nat → ℚ
  clean : Nat → Int
  typeOf : Nat → Nat
  setup : Nat → Nat → Nat

/-- Python's `str` of a list of naturals, e.g. `[0, 1, 2]`. -/
def pyStrNatList (l : List Nat) : String :=
  "[" ++ String.intercalate ", " (l.map toString) ++ "]"

/-- Python's `str` of a list of integers. -/
def pyStrIntList (l : List Int) : String :=
  "[" ++ String.intercalate ", " (l.map toString) ++ "]"

/-- Python's `str` of a list of lists of naturals, e.g. `[[1, 0], [0, 1]]`. -/
def pyStrNatMatrix (m : List (List Nat)) : String :=
  "[" ++ String.intercalate ", " (m.map pyStrNatList) ++ "]"

/-- Python's `int(q)` on a real value: truncation toward zero. -/
def pyInt (q : ℚ) : Int :=
  if 0 ≤ q then ⌊q⌋ else ⌈q⌉

/-- Python's `l[i]` for `i : Int`, with negative-index wrap-around; `none`
where Python would raise `IndexError`. -/
def pyIndex (l : List α) (i : Int) : Option α :=
  if 0 ≤ i then l[i.toNat]?
  else if 0 ≤ (l.length : Int) + i then l[((l.length : Int) + i).toNat]?
  else none

/-- Embedding of `define_sets`: the three index-set statements. -/
def define_sets (nb_surgeons nb_rooms nb_operations : Nat) : String :=
  "O = " ++ pyStrNatList (List.range nb_operations) ++ "; \n"
  ++ "C = " ++ pyStrNatList (List.range nb_surgeons) ++ "; \n"
  ++ "S = " ++ pyStrNatList (List.range nb_rooms) ++ "; \n"

/-- Probability actually used by `generate_room_availability`: the module flag
`all_rooms_available` overrides the `probability` argument with `1`. -/
def effective_probability (all_rooms_available : Bool) (probability : ℚ) : ℚ :=
  if all_rooms_available then 1 else probability

/-- Inner loop of `generate_room_availability` for one operation: walks the
room indices `rs`, carrying the `only_zeros` flag; the last room is forced to
`1` when every prior trial for this operation was `0`, otherwise each room is
an independent Bernoulli trial `u r < probability`. -/
def room_row (u : Nat → ℚ) (probability : ℚ) (nb_rooms : Nat) :
    List Nat → Bool → List Nat
  | [], _ => []
  | r :: rest, only_zeros =>
    if r = nb_rooms - 1 ∧ only_zeros = true then
      1 :: room_row u probability nb_rooms rest only_zeros
    else if u r < probability then
      1 :: room_row u probability nb_rooms rest false
    else
      0 :: room_row u probability nb_rooms rest only_zeros

/-- Matrix `A[o][r]` built by `generate_room_availability`. -/
def room_availability_matrix (u : Nat → Nat → ℚ) (all_rooms_available : Bool)
    (nb_operations nb_rooms : Nat) (probability : ℚ) : List (List Nat) :=
  (List.range nb_operations).map (fun o =>
    room_row (u o) (effective_probability all_rooms_available probability)
      nb_rooms (List.range nb_rooms) true)

/-- Embedding of `generate_room_availability`: the `A = ...;` statement. -/
def generate_room_availability (u : Nat → Nat → ℚ) (all_rooms_available : Bool)
    (nb_operations nb_rooms : Nat) (probability : ℚ) : String :=
  "A = " ++ pyStrNatMatrix
    (room_availability_matrix u all_rooms_available nb_operations nb_rooms probability)
  ++ "; \n"

/-- One pass of the inner loop of `generate_surgeon_eligibility`: appends to
each surgeon row `c` the entry `1` if `c` is the current surgeon, else `0`. -/
def append_surgeon_column (current_surgeon : Nat) :
    Nat → List (List Nat) → List (List Nat)
  | _, [] => []
  | c, row :: rest =>
    (row ++ [if c = current_surgeon then 1 else 0])
      :: append_surgeon_column current_surgeon (c + 1) rest

/-- Matrix `X[c][o]` built by `generate_surgeon_eligibility`: starting from
`nb_surgeons` empty rows, each operation `o` appends a column that is `1`
exactly at surgeon `o % nb_surgeons`.  The construction uses no randomness. -/
def surgeon_eligibility_matrix (nb_surgeons nb_operations : Nat) : List (List Nat) :=
  (List.range nb_operations).foldl
    (fun m o => append_surgeon_column (o % nb_surgeons) 0 m)
    (List.replicate nb_surgeons [])

/-- Embedding of `generate_surgeon_eligibility`: the matrix together with the
`X = ...;` statement. -/
def generate_surgeon_eligibility (nb_surgeons nb_operations : Nat) :
    List (List Nat) × String :=
  (surgeon_eligibility_matrix nb_surgeons nb_operations,
   "X = " ++ pyStrNatMatrix (surgeon_eligibility_matrix nb_surgeons nb_operations)
     ++ "; \n")

/-- Window appended for one surgeon by `generate_surgeon_time_windows`,
depending on the drawn shift type; `none` models the Python loop appending
nothing when the shift type is outside `{0, 1, 2}`. -/
def shift_window (max_time shift_type : Nat) : Option (Nat × Nat) :=
  if shift_type = 0 then some (0, max_time / 2)
  else if shift_type = 1 then some (max_time / 2, max_time)
  else if shift_type = 2 then some (0, max_time)
  else none

/-- Vectors `F` (start times) and `G` (end times) built by
`generate_surgeon_time_windows`; `max_time` is `800` when the surgeon schedule
is restricted and `10000` otherwise. -/
def surgeon_time_windows (shiftRand : Nat → Nat) (enable_surgeon_schedule : Bool)
    (nb_surgeons : Nat) : List Nat × List Nat :=
  ((List.range nb_surgeons).filterMap (fun s =>
    shift_window (if enable_surgeon_schedule then 800 else 10000) (shiftRand s))).unzip

/-- Embedding of `generate_surgeon_time_windows`: the `F = ...;` and
`G = ...;` statements. -/
def generate_surgeon_time_windows (shiftRand : Nat → Nat)
    (enable_surgeon_schedule : Bool) (nb_surgeons : Nat) : String :=
  "F = " ++ pyStrNatList (surgeon_time_windows shiftRand enable_surgeon_schedule nb_surgeons).1
  ++ "; \n"
  ++ "G = " ++ pyStrNatList (surgeon_time_windows shiftRand enable_surgeon_schedule nb_surgeons).2
  ++ "; \n"

/-- Index of the first surgeon `c` (scanning from the accumulator upward) with
`eligibility_matrix[c][o] == 1`, as in the specialty-assignment loop of
`generate_types_and_setup_times`. -/
def first_eligible_surgeon (o : Nat) : List (List Nat) → Nat → Option Nat
  | [], _ => none
  | row :: rest, c =>
    if row.getD o 0 = 1 then some c else first_eligible_surgeon o rest (c + 1)

/-- Value left in `type_by_operation[o]` by `generate_types_and_setup_times`:
the specialty of the first eligible surgeon, or the initial `-1` when no
surgeon is eligible. -/
def type_by_operation (type_by_surgeon : Nat → Nat)
    (eligibility_matrix : List (List Nat)) (o : Nat) : Int :=
  match first_eligible_surgeon o eligibility_matrix 0 with
  | some c => (type_by_surgeon c : Int)
  | none => -1

/-- Matrix `type_transition_time[t1][t2]` of `generate_types_and_setup_times`:
`0` on the diagonal or when setup times are disabled, otherwise the sampled
value `setupRand t1 t2`. -/
def type_transition_time (enable_setup_times : Bool) (setupRand : Nat → Nat → Nat)
    (nb_types : Nat) : List (List Nat) :=
  (List.range nb_types).map (fun t1 =>
    (List.range nb_types).map (fun t2 =>
      if t1 = t2 ∨ enable_setup_times = false then 0 else setupRand t1 t2))

/-- Lookup `type_transition_time[t1][t2]` with Python indexing (so the `-1`
left by an unassigned operation wraps to the last row/column); defaults to `0`
where Python would raise. -/
def lookup_transition (tt : List (List Nat)) (t1 t2 : Int) : Nat :=
  ((pyIndex tt t1).bind (fun row => pyIndex row t2)).getD 0

/-- One-hot specialty indicator matrix `T[o][t]` of
`generate_types_and_setup_times` (rows stay all-zero for operations with no
eligible surgeon; `List.set` ignores an out-of-range specialty where Python
would raise). -/
def T_matrix (type_by_surgeon : Nat → Nat) (eligibility_matrix : List (List Nat))
    (nb_operations nb_types : Nat) : List (List Nat) :=
  (List.range nb_operations).map (fun o =>
    match first_eligible_surgeon o eligibility_matrix 0 with
    | some c => (List.replicate nb_types 0).set (type_by_surgeon c) 1
    | none => List.replicate nb_types 0)

/-- Setup-time matrix `TD[o1][o2]` of `generate_types_and_setup_times`: the
type-transition cost between the specialties of `o1` and `o2`. -/
def TD_matrix (type_by_surgeon : Nat → Nat) (eligibility_matrix : List (List Nat))
    (enable_setup_times : Bool) (setupRand : Nat → Nat → Nat)
    (nb_operations nb_types : Nat) : List (List Nat) :=
  let tt := type_transition_time enable_setup_times setupRand nb_types
  (List.range nb_operations).map (fun o1 =>
    (List.range nb_operations).map (fun o2 =>
      lookup_transition tt
        (type_by_operation type_by_surgeon eligibility_matrix o1)
        (type_by_operation type_by_surgeon eligibility_matrix o2)))

/-- Embedding of `generate_types_and_setup_times`: the `T = ...;` and
`TD = ...;` statements (`max_setup_time` only bounds the `setupRand` draws in
the source, which the oracle already carries, so it is unused here). -/
def generate_types_and_setup_times (type_by_surgeon : Nat → Nat)
    (eligibility_matrix : List (List Nat)) (enable_setup_times : Bool)
    (setupRand : Nat → Nat → Nat) (nb_operations max_setup_time nb_types : Nat) :
    String :=
  "T = " ++ pyStrNatMatrix (T_matrix type_by_surgeon eligibility_matrix nb_operations nb_types)
  ++ "; \n"
  ++ "TD = " ++ pyStrNatMatrix
    (TD_matrix type_by_surgeon eligibility_matrix enable_setup_times setupRand
      nb_operations nb_types)
  ++ "; \n"

/-- Duration `TC[o]`: `int(np.random.lognormal(4, 0.5) + 1)` with the
lognormal draw given by the oracle `surgR`. -/
def surgery_duration (surgR : Nat → ℚ) (o : Nat) : Int :=
  pyInt (surgR o + 1)

/-- Preparation durations `TP` of `generate_operation_durations`. -/
def TP_list (prepR : Nat → Int) (nb_operations : Nat) : List Int :=
  (List.range nb_operations).map prepR

/-- Surgery durations `TC` of `generate_operation_durations`. -/
def TC_list (surgR : Nat → ℚ) (nb_operations : Nat) : List Int :=
  (List.range nb_operations).map (surgery_duration surgR)

/-- Cleaning durations `TN` of `generate_operation_durations`. -/
def TN_list (cleanR : Nat → Int) (nb_operations : Nat) : List Int :=
  (List.range nb_operations).map cleanR

/-- Total durations `TT` of `generate_operation_durations`:
`prep + surg + clean` per operation. -/
def TT_list (prepR : Nat → Int) (surgR : Nat → ℚ) (cleanR : Nat → Int)
    (nb_operations : Nat) : List Int :=
  (List.range nb_operations).map
    (fun o => prepR o + surgery_duration surgR o + cleanR o)

/-- Embedding of `generate_operation_durations`: the `TP`, `TC`, `TN`, `TT`
statements. -/
def generate_operation_durations (prepR : Nat → Int) (surgR : Nat → ℚ)
    (cleanR : Nat → Int) (nb_operations : Nat) : String :=
  "TP = " ++ pyStrIntList (TP_list prepR nb_operations) ++ "; \n"
  ++ "TC = " ++ pyStrIntList (TC_list surgR nb_operations) ++ "; \n"
  ++ "TN = " ++ pyStrIntList (TN_list cleanR nb_operations) ++ "; \n"
  ++ "TT = " ++ pyStrIntList (TT_list prepR surgR cleanR nb_operations) ++ "; \n"

/-- Embedding of `create_instance`: the full textual instance, concatenating
the generators in the source's fixed order (the room-availability call keeps
the source's default `probability = 0.9`, and the types call the defaults
`max_setup_time = 30`, `nb_types = 4`). -/
def create_instance (r : Randomness)
    (all_rooms_available enable_surgeon_schedule enable_setup_times : Bool)
    (nb_operations nb_surgeons nb_rooms : Nat) (Tmax : Int) : String :=
  "\n"
  ++ define_sets nb_surgeons nb_rooms nb_operations
  ++ "\n"
  ++ generate_room_availability r.roomU all_rooms_available nb_operations nb_rooms (9 / 10)
  ++ (generate_surgeon_eligibility nb_surgeons nb_operations).2
  ++ generate_surgeon_time_windows r.shift enable_surgeon_schedule nb_surgeons
  ++ generate_operation_durations r.prep r.surg r.clean nb_operations
  ++ generate_types_and_setup_times r.typeOf
      (generate_surgeon_eligibility nb_surgeons nb_operations).1
      enable_setup_times r.setup nb_operations 30 4
  ++ "Tmax = " ++ toString Tmax ++ "; \n"
  ++ "M = 999999; \n"
  ++ "\n"

/-- Filename produced by `generate_multiple_instances` for batch index `i`. -/
def instance_filename (nb_operations nb_surgeons nb_rooms : Nat)
    (enable_setup_times : Bool) (i : Nat) : String :=
  "o" ++ toString nb_operations ++ "_c" ++ toString nb_surgeons
  ++ "_s" ++ toString nb_rooms ++ (if enable_setup_times then "_ST" else "")
  ++ "_instance_" ++ toString i ++ ".txt"

/-- Embedding of `generate_multiple_instances`: the `ValueError` raised when
`output_folder is None` becomes `Except.error`, and the filesystem effect of a
successful run is modelled by its observable content, the list of
(path, instance text) pairs written; `r i` is the fresh randomness of batch
iteration `i`. -/
def generate_multiple_instances (r : Nat → Randomness)
    (all_rooms_available enable_surgeon_schedule enable_setup_times : Bool)
    (nb_operations nb_surgeons nb_rooms n : Nat) (output_folder : Option String) :
    Except String (List (String × String)) :=
  match output_folder with
  | none => Except.error "An output folder path must be specified."
  | some folder =>
      Except.ok ((List.range n).map (fun i =>
        (folder ++ "/" ++ instance_filename nb_operations nb_surgeons nb_rooms
            enable_setup_times i,
         create_instance (r i) all_rooms_available enable_surgeon_schedule
           enable_setup_times nb_operations nb_surgeons nb_rooms 45)))

/-! Helper lemmas about the embedded generators. -/

lemma room_row_length (u : Nat → ℚ) (p : ℚ) (n : Nat) :
    ∀ (rs : List Nat) (oz : Bool), (room_row u p n rs oz).length = rs.length := by
  intro rs
  induction rs with
  | nil => intro oz; rfl
  | cons r rest ih =>
    intro oz
    simp only [room_row]
    split_ifs <;> simp [ih]

lemma room_row_one_mem (u : Nat → ℚ) (p : ℚ) (n : Nat) :
    ∀ rs : List Nat, (n - 1) ∈ rs → 1 ∈ room_row u p n rs true := by
  intro rs
  induction rs with
  | nil => simp
  | cons r rest ih =>
    intro hmem
    by_cases h1 : r = n - 1
    · simp [room_row, h1]
    · have hrest : n - 1 ∈ rest := by
        rcases List.mem_cons.mp hmem with h | h
        · exact absurd h.symm h1
        · exact h
      by_cases h2 : u r < p
      · simp [room_row, h1, h2]
      · simp only [room_row, h1, h2, false_and, if_false, if_neg h2]
        exact List.mem_cons_of_mem _ (ih hrest)

lemma room_row_all_one (u : Nat → ℚ) (p : ℚ) (n : Nat) (hu : ∀ r, u r < p) :
    ∀ (rs : List Nat) (oz : Bool), ∀ v ∈ room_row u p n rs oz, v = 1 := by
  intro rs
  induction rs with
  | nil => intro oz v hv; simp [room_row] at hv
  | cons r rest ih =>
    intro oz v hv
    simp only [room_row] at hv
    split_ifs at hv with h1 h2
    · rcases List.mem_cons.mp hv with h | h
      · exact h
      · exact ih _ v h
    · rcases List.mem_cons.mp hv with h | h
      · exact h
      · exact ih _ v h
    · exact absurd (hu r) h2

lemma getD_map_range (f : Nat → α) (n i : Nat) (hi : i < n) (d : α) :
    ((List.range n).map f).getD i d = f i := by
  rw [List.getD_eq_getElem?_getD, List.getElem?_map, List.getElem?_range hi]
  rfl

lemma sum_indicator_range (n j : Nat) :
    ((List.range n).map (fun c => if c = j then (1 : Nat) else 0)).sum
      = if j < n then 1 else 0 := by
  induction n with
  | zero => simp
  | succ m ih =>
    rw [List.range_succ, List.map_append, List.sum_append, ih]
    simp only [List.map_cons, List.map_nil, List.sum_cons, List.sum_nil]
    split_ifs <;> omega

lemma append_surgeon_column_map_range' (cur : Nat) (f : Nat → List Nat) :
    ∀ (m k : Nat),
      append_surgeon_column cur k ((List.range' k m).map f)
        = (List.range' k m).map (fun c => f c ++ [if c = cur then 1 else 0]) := by
  intro m
  induction m with
  | zero => intro k; rfl
  | succ m ih =>
    intro k
    rw [List.range'_succ]
    simp only [List.map_cons, append_surgeon_column]
    rw [ih]

lemma surgeon_eligibility_matrix_eq (nb_surgeons nb_operations : Nat) :
    surgeon_eligibility_matrix nb_surgeons nb_operations
      = (List.range nb_surgeons).map (fun c =>
          (List.range nb_operations).map (fun o =>
            if c = o % nb_surgeons then 1 else 0)) := by
  induction nb_operations with
  | zero =>
    simp only [surgeon_eligibility_matrix, List.range_zero, List.foldl_nil, List.map_nil]
    rw [List.map_const', List.length_range]
  | succ k ih =>
    unfold surgeon_eligibility_matrix at ih ⊢
    rw [List.range_succ, List.foldl_append, List.foldl_cons, List.foldl_nil, ih,
      show List.range nb_surgeons = List.range' 0 nb_surgeons from List.range_eq_range' _,
      append_surgeon_column_map_range']
    apply List.map_congr_left
    intro c _
    simp [List.range_succ]

lemma pyIndex_map (f : α → β) (l : List α) (t : Int) :
    pyIndex (l.map f) t = (pyIndex l t).map f := by
  unfold pyIndex
  rw [List.length_map]
  split_ifs <;> simp [List.getElem?_map]

lemma pyIndex_mem (l : List α) (t : Int) (x : α) (h : pyIndex l t = some x) :
    x ∈ l := by
  unfold pyIndex at h
  split_ifs at h
  · exact List.getElem?_mem h
  · exact List.getElem?_mem h

lemma lookup_transition_self (enable : Bool) (s : Nat → Nat → Nat) (n : Nat)
    (t : Int) :
    lookup_transition (type_transition_time enable s n) t t = 0 := by
  rcases h : pyIndex (List.range n) t with _ | j
  · simp [lookup_transition, type_transition_time, pyIndex_map, h]
  · simp [lookup_transition, type_transition_time, pyIndex_map, h]

lemma lookup_transition_disabled (s : Nat → Nat → Nat) (n : Nat) (t1 t2 : Int) :
    lookup_transition (type_transition_time false s n) t1 t2 = 0 := by
  have htt : type_transition_time false s n
      = List.replicate n (List.replicate n 0) := by
    simp [type_transition_time]
  unfold lookup_transition
  rw [htt]
  rcases h1 : pyIndex (List.replicate n (List.replicate n (0 : Nat))) t1 with _ | row
  · simp
  · have hrow : row = List.replicate n 0 := List.eq_of_mem_replicate (pyIndex_mem _ _ _ h1)
    subst hrow
    rcases h2 : pyIndex (List.replicate n (0 : Nat)) t2 with _ | v
    · simp [h2]
    · have hv : v = 0 := List.eq_of_mem_replicate (pyIndex_mem _ _ _ h2)
      simp [h2, hv]

lemma first_eligible_map_range' (o j : Nat) (f : Nat → List Nat)
    (hf : ∀ c, ((f c).getD o 0 = 1) ↔ c = j) :
    ∀ (m k : Nat), k ≤ j → j < k + m →
      first_eligible_surgeon o ((List.range' k m).map f) k = some j := by
  intro m
  induction m with
  | zero => intro k h1 h2; omega
  | succ m ih =>
    intro k h1 h2
    rw [List.range'_succ]
    simp only [List.map_cons, first_eligible_surgeon]
    by_cases hk : k = j
    · subst hk
      rw [if_pos ((hf k).mpr rfl)]
    · rw [if_neg (fun h => hk ((hf k).mp h))]
      exact ih (k + 1) (by omega) (by omega)

lemma type_by_operation_mod (typeS : Nat → Nat) (nb_surgeons nb_operations o : Nat)
    (hS : 1 ≤ nb_surgeons) (ho : o < nb_operations) :
    type_by_operation typeS (surgeon_eligibility_matrix nb_surgeons nb_operations) o
      = (typeS (o % nb_surgeons) : Int) := by
  unfold type_by_operation
  rw [surgeon_eligibility_matrix_eq,
    show List.range nb_surgeons = List.range' 0 nb_surgeons from List.range_eq_range' _,
    first_eligible_map_range' o (o % nb_surgeons) _ ?_ nb_surgeons 0 (Nat.zero_le _)
      (by simpa using Nat.mod_lt o hS)]
  intro c
  rw [getD_map_range _ _ _ ho]
  constructor
  · intro h
    by_contra hc
    simp [hc] at h
  · intro h
    simp [h]

/-! Claim theorems. -/

/-- C1: every row of the room-eligibility matrix produced by
`generate_room_availability` contains at least one `1` (its sum is at least
`1`), for every draw oracle, every operation/room count with at least one
room, and both settings of the all-rooms flag: the construction forces the
last room to `1` when all prior trials were `0`, with no rejection or retry
loop (the result is total in the oracle). -/
theorem room_availability_row_sum_pos (u : Nat → Nat → ℚ)
    (all_rooms_available : Bool) (nb_operations nb_rooms : Nat)
    (probability : ℚ) (hR : 1 ≤ nb_rooms) (row : List Nat)
    (hrow : row ∈ room_availability_matrix u all_rooms_available nb_operations
      nb_rooms probability) :
    1 ≤ row.sum := by
  rcases List.mem_map.mp hrow with ⟨o, _, rfl⟩
  have hmem : 1 ∈ room_row (u o)
      (effective_probability all_rooms_available probability) nb_rooms
      (List.range nb_rooms) true :=
    room_row_one_mem _ _ _ _ (List.mem_range.mpr (by omega))
  exact List.single_le_sum (fun x _ => Nat.zero_le x) 1 hmem

/-- Witness for C1 at a concrete input: with one operation, two rooms, and
draws that always fail the Bernoulli trial, the generated row is `[0, 1]`
(last room forced) and its sum is at least `1`. -/
theorem room_availability_row_sum_pos_witness :
    [0, 1] ∈ room_availability_matrix (fun _ _ => 2) false 1 2 0
    ∧ 1 ≤ ([0, 1] : List Nat).sum :=
  ⟨by decide, room_availability_row_sum_pos (fun _ _ => 2) false 1 2 0
    (by decide) [0, 1] (by decide)⟩

/-- C2: for at least one surgeon, every column `o` of the surgeon-eligibility
matrix sums to exactly `1`, and the entry at row `o % nb_surgeons` is that
`1`; the matrix is produced by a deterministic construction
(`surgeon_eligibility_matrix` takes no randomness oracle). -/
theorem surgeon_eligibility_column_sum_one (nb_surgeons nb_operations : Nat)
    (hS : 1 ≤ nb_surgeons) (o : Nat) (ho : o < nb_operations) :
    ((surgeon_eligibility_matrix nb_surgeons nb_operations).map
        (fun row => row.getD o 0)).sum = 1
    ∧ ((surgeon_eligibility_matrix nb_surgeons nb_operations).getD
        (o % nb_surgeons) []).getD o 0 = 1 := by
  constructor
  · rw [surgeon_eligibility_matrix_eq, List.map_map]
    have hc : ((fun row => List.getD row o 0) ∘ fun c =>
        (List.range nb_operations).map fun o2 =>
          if c = o2 % nb_surgeons then 1 else 0)
        = fun c => if c = o % nb_surgeons then (1 : Nat) else 0 := by
      funext c
      simp only [Function.comp]
      rw [getD_map_range _ _ _ ho]
    rw [hc, sum_indicator_range]
    simp [Nat.mod_lt o hS]
  · rw [surgeon_eligibility_matrix_eq,
      getD_map_range _ _ _ (Nat.mod_lt o hS),
      getD_map_range _ _ _ ho]
    simp

/-- Witness for C2 with two surgeons, three operations, column `1`. -/
theorem surgeon_eligibility_column_sum_one_witness :
    ((surgeon_eligibility_matrix 2 3).map (fun row => row.getD 1 0)).sum = 1
    ∧ ((surgeon_eligibility_matrix 2 3).getD (1 % 2) []).getD 1 0 = 1 :=
  surgeon_eligibility_column_sum_one 2 3 (by decide) 1 (by decide)

/-- C3: the setup-time matrix `TD` has `TD[o][o] = 0` for every operation `o`
(for any eligibility matrix, specialty draws and flag settings), and when the
setup-times flag is false the whole matrix is zero. -/
theorem setup_times_diag_zero_and_disabled_zero (typeS : Nat → Nat)
    (eligibility_matrix : List (List Nat)) (enable_setup_times : Bool)
    (setupRand : Nat → Nat → Nat) (nb_operations nb_types : Nat)
    (o : Nat) (ho : o < nb_operations) :
    ((TD_matrix typeS eligibility_matrix enable_setup_times setupRand
        nb_operations nb_types).getD o []).getD o 0 = 0
    ∧ (enable_setup_times = false →
        TD_matrix typeS eligibility_matrix enable_setup_times setupRand
            nb_operations nb_types
          = List.replicate nb_operations (List.replicate nb_operations 0)) := by
  constructor
  · simp only [TD_matrix]
    rw [getD_map_range _ _ _ ho, getD_map_range _ _ _ ho]
    exact lookup_transition_self _ _ _ _
  · intro he
    subst he
    simp only [TD_matrix]
    rw [List.eq_replicate_iff]
    refine ⟨by simp, ?_⟩
    intro row hrow
    rcases List.mem_map.mp hrow with ⟨o1, _, rfl⟩
    rw [List.eq_replicate_iff]
    refine ⟨by simp, ?_⟩
    intro v hv
    rcases List.mem_map.mp hv with ⟨o2, _, rfl⟩
    exact lookup_transition_disabled _ _ _ _

/-- Witness for C3 with one operation and setup times disabled. -/
theorem setup_times_diag_zero_and_disabled_zero_witness :
    ((TD_matrix (fun _ => 0) [[1]] false (fun _ _ => 5) 1 4).getD 0 []).getD 0 0 = 0
    ∧ (false = false →
        TD_matrix (fun _ => 0) [[1]] false (fun _ _ => 5) 1 4
          = List.replicate 1 (List.replicate 1 0)) :=
  setup_times_diag_zero_and_disabled_zero (fun _ => 0) [[1]] false (fun _ _ => 5)
    1 4 0 (by decide)

/-- C4: for every operation, the total duration `TT[o]` equals exactly
`TP[o] + TC[o] + TN[o]`, and all three components are positive, given the
guarantees of the sampling primitives (`randint(5, 30)`, a positive lognormal
draw, `randint(10, 20)`). -/
theorem operation_durations_total_and_positive (prepR : Nat → Int)
    (surgR : Nat → ℚ) (cleanR : Nat → Int) (nb_operations : Nat)
    (hprep : ∀ i, 5 ≤ prepR i ∧ prepR i ≤ 30)
    (hsurg : ∀ i, 0 < surgR i)
    (hclean : ∀ i, 10 ≤ cleanR i ∧ cleanR i ≤ 20)
    (o : Nat) (ho : o < nb_operations) :
    (TT_list prepR surgR cleanR nb_operations).getD o 0
        = (TP_list prepR nb_operations).getD o 0
          + (TC_list surgR nb_operations).getD o 0
          + (TN_list cleanR nb_operations).getD o 0
    ∧ 0 < (TP_list prepR nb_operations).getD o 0
    ∧ 0 < (TC_list surgR nb_operations).getD o 0
    ∧ 0 < (TN_list cleanR nb_operations).getD o 0 := by
  have hTC : 0 < surgery_duration surgR o := by
    unfold surgery_duration pyInt
    have h1 : (0 : ℚ) ≤ surgR o + 1 := by linarith [hsurg o]
    rw [if_pos h1]
    have h2 : (1 : Int) ≤ ⌊surgR o + 1⌋ := by
      rw [Int.le_floor]
      push_cast
      linarith [hsurg o]
    omega
  refine ⟨?_, ?_, ?_, ?_⟩
  · unfold TT_list TP_list TC_list TN_list
    rw [getD_map_range _ _ _ ho, getD_map_range _ _ _ ho,
      getD_map_range _ _ _ ho, getD_map_range _ _ _ ho]
  · unfold TP_list
    rw [getD_map_range _ _ _ ho]
    have := hprep o
    omega
  · unfold TC_list
    rw [getD_map_range _ _ _ ho]
    exact hTC
  · unfold TN_list
    rw [getD_map_range _ _ _ ho]
    have := hclean o
    omega

/-- Witness for C4 with one operation and draws `7`, `2`, `12`. -/
theorem operation_durations_total_and_positive_witness :
    (TT_list (fun _ => 7) (fun _ => 2) (fun _ => 12) 1).getD 0 0
        = (TP_list (fun _ => 7) 1).getD 0 0
          + (TC_list (fun _ => 2) 1).getD 0 0
          + (TN_list (fun _ => 12) 1).getD 0 0
    ∧ 0 < (TP_list (fun _ => 7) 1).getD 0 0
    ∧ 0 < (TC_list (fun _ => 2) 1).getD 0 0
    ∧ 0 < (TN_list (fun _ => 12) 1).getD 0 0 :=
  operation_durations_total_and_positive (fun _ => 7) (fun _ => 2) (fun _ => 12) 1
    (fun _ => ⟨show (5 : Int) ≤ 7 by decide, show (7 : Int) ≤ 30 by decide⟩)
    (fun _ => show (0 : ℚ) < 2 by decide)
    (fun _ => ⟨show (10 : Int) ≤ 12 by decide, show (12 : Int) ≤ 20 by decide⟩)
    0 (by decide)

/-- C5: when the all-rooms-available flag is true the sampling probability is
forced to `1`, and since every `random.uniform(0, 1)` draw is `< 1`, the
room-eligibility matrix is entirely `1`; in particular with room count `3`
and operation count `2` it is `[[1, 1, 1], [1, 1, 1]]`. -/
theorem all_rooms_available_all_one (u : Nat → Nat → ℚ) (probability : ℚ)
    (hu : ∀ o r, u o r < 1) (nb_operations nb_rooms : Nat) :
    effective_probability true probability = 1
    ∧ room_availability_matrix u true nb_operations nb_rooms probability
        = List.replicate nb_operations (List.replicate nb_rooms 1)
    ∧ room_availability_matrix u true 2 3 probability = [[1, 1, 1], [1, 1, 1]] := by
  have hrow : ∀ (nR o : Nat),
      room_row (u o) (effective_probability true probability) nR
          (List.range nR) true
        = List.replicate nR 1 := by
    intro nR o
    rw [List.eq_replicate_iff]
    refine ⟨by rw [room_row_length, List.length_range], ?_⟩
    intro b hb
    exact room_row_all_one (u o) _ nR
      (fun r => by simpa [effective_probability] using hu o r) _ _ b hb
  have hmat : ∀ nO nR : Nat,
      room_availability_matrix u true nO nR probability
        = List.replicate nO (List.replicate nR 1) := by
    intro nO nR
    unfold room_availability_matrix
    rw [List.eq_replicate_iff]
    refine ⟨by simp, ?_⟩
    intro row hrow2
    rcases List.mem_map.mp hrow2 with ⟨o, _, rfl⟩
    exact hrow nR o
  exact ⟨by simp [effective_probability], hmat _ _, by rw [hmat 2 3]; rfl⟩

/-- Witness for C5 with all draws equal to `0`. -/
theorem all_rooms_available_all_one_witness :
    effective_probability true 0 = 1
    ∧ room_availability_matrix (fun _ _ => 0) true 1 2 0
        = List.replicate 1 (List.replicate 2 1)
    ∧ room_availability_matrix (fun _ _ => 0) true 2 3 0 = [[1, 1, 1], [1, 1, 1]] :=
  all_rooms_available_all_one (fun _ _ => 0) 0
    (fun _ _ => show (0 : ℚ) < 1 by decide) 1 2

/-- C6: since the shift draw `random.randint(2, 2)` always yields `2` (full
day), every surgeon gets start time `0` and end time equal to the day-length
sentinel (`800` when the restricted-schedule flag is true, `10000` otherwise),
so every surgeon's window satisfies start < end. -/
theorem surgeon_time_windows_full_day (shiftRand : Nat → Nat)
    (enable_surgeon_schedule : Bool) (nb_surgeons : Nat)
    (hshift : ∀ s, shiftRand s = 2) (i : Nat) (hi : i < nb_surgeons) :
    (surgeon_time_windows shiftRand enable_surgeon_schedule nb_surgeons).1
        = List.replicate nb_surgeons 0
    ∧ (surgeon_time_windows shiftRand enable_surgeon_schedule nb_surgeons).2
        = List.replicate nb_surgeons (if enable_surgeon_schedule then 800 else 10000)
    ∧ (surgeon_time_windows shiftRand enable_surgeon_schedule nb_surgeons).1.getD i 0
        < (surgeon_time_windows shiftRand enable_surgeon_schedule nb_surgeons).2.getD i 0 := by
  have hfm : ∀ l : List Nat,
      l.filterMap (fun s =>
        shift_window (if enable_surgeon_schedule then 800 else 10000) (shiftRand s))
        = l.map (fun _ => ((0 : Nat), if enable_surgeon_schedule then 800 else 10000)) := by
    intro l
    induction l with
    | nil => rfl
    | cons a t ih =>
      rw [List.filterMap_cons, hshift a]
      rw [show shift_window (if enable_surgeon_schedule then 800 else 10000) 2
        = some (0, if enable_surgeon_schedule then 800 else 10000) from rfl]
      rw [ih, List.map_cons]
  have hpair : surgeon_time_windows shiftRand enable_surgeon_schedule nb_surgeons
      = (List.replicate nb_surgeons 0,
         List.replicate nb_surgeons (if enable_surgeon_schedule then 800 else 10000)) := by
    unfold surgeon_time_windows
    rw [hfm]
    simp [List.unzip_eq_map, List.map_map, Function.comp_def,
      List.map_const', List.length_range]
  rw [hpair]
  refine ⟨rfl, rfl, ?_⟩
  rw [List.getD_eq_getElem?_getD, List.getD_eq_getElem?_getD,
    List.getElem?_replicate, List.getElem?_replicate, if_pos hi, if_pos hi]
  by_cases he : enable_surgeon_schedule <;> simp [he]

/-- Witness for C6 with two surgeons and the restricted schedule. -/
theorem surgeon_time_windows_full_day_witness :
    (surgeon_time_windows (fun _ => 2) true 2).1 = List.replicate 2 0
    ∧ (surgeon_time_windows (fun _ => 2) true 2).2
        = List.replicate 2 (if true then 800 else 10000)
    ∧ (surgeon_time_windows (fun _ => 2) true 2).1.getD 0 0
        < (surgeon_time_windows (fun _ => 2) true 2).2.getD 0 0 :=
  surgeon_time_windows_full_day (fun _ => 2) true 2 (fun _ => rfl) 0 (by decide)

/-- C7: the textual instance produced by `create_instance` is the fixed-order
sequence of `NAME = <literal>;` statements: index sets `O`, `C`, `S`, a blank
separator, then `A`, `X`, `F`, `G`, `TP`, `TC`, `TN`, `TT`, `T`, `TD`,
`Tmax`, the sentinel `M = 999999`, and a trailing blank line (the whole
document is additionally preceded by one blank line, visible below). -/
theorem create_instance_statement_order (r : Randomness)
    (all_rooms_available enable_surgeon_schedule enable_setup_times : Bool)
    (nb_operations nb_surgeons nb_rooms : Nat) (Tmax : Int) :
    ∃ litO litC litS litA litX litF litG litTP litTC litTN litTT litT litTD
      litTmax : String,
      create_instance r all_rooms_available enable_surgeon_schedule
          enable_setup_times nb_operations nb_surgeons nb_rooms Tmax
        = "\n" ++ "O = " ++ litO ++ "; \n" ++ "C = " ++ litC ++ "; \n"
          ++ "S = " ++ litS ++ "; \n" ++ "\n"
          ++ "A = " ++ litA ++ "; \n" ++ "X = " ++ litX ++ "; \n"
          ++ "F = " ++ litF ++ "; \n" ++ "G = " ++ litG ++ "; \n"
          ++ "TP = " ++ litTP ++ "; \n" ++ "TC = " ++ litTC ++ "; \n"
          ++ "TN = " ++ litTN ++ "; \n" ++ "TT = " ++ litTT ++ "; \n"
          ++ "T = " ++ litT ++ "; \n" ++ "TD = " ++ litTD ++ "; \n"
          ++ "Tmax = " ++ litTmax ++ "; \n" ++ "M = 999999; \n" ++ "\n" := by
  refine ⟨pyStrNatList (List.range nb_operations),
    pyStrNatList (List.range nb_surgeons),
    pyStrNatList (List.range nb_rooms),
    pyStrNatMatrix (room_availability_matrix r.roomU all_rooms_available
      nb_operations nb_rooms (9 / 10)),
    pyStrNatMatrix (surgeon_eligibility_matrix nb_surgeons nb_operations),
    pyStrNatList (surgeon_time_windows r.shift enable_surgeon_schedule nb_surgeons).1,
    pyStrNatList (surgeon_time_windows r.shift enable_surgeon_schedule nb_surgeons).2,
    pyStrIntList (TP_list r.prep nb_operations),
    pyStrIntList (TC_list r.surg nb_operations),
    pyStrIntList (TN_list r.clean nb_operations),
    pyStrIntList (TT_list r.prep r.surg r.clean nb_operations),
    pyStrNatMatrix (T_matrix r.typeOf
      (surgeon_eligibility_matrix nb_surgeons nb_operations) nb_operations 4),
    pyStrNatMatrix (TD_matrix r.typeOf
      (surgeon_eligibility_matrix nb_surgeons nb_operations) enable_setup_times
      r.setup nb_operations 4),
    toString Tmax, ?_⟩
  simp only [create_instance, define_sets, generate_room_availability,
    generate_surgeon_eligibility, generate_surgeon_time_windows,
    generate_operation_durations, generate_types_and_setup_times,
    String.append_assoc]

/-- C8: with one surgeon and three operations the surgeon-eligibility matrix
is the single row `[1, 1, 1]`, and the setup-time matrix `TD` is the 3×3 zero
matrix even with setup times enabled, for every specialty and setup draw:
every operation inherits the one surgeon's specialty, and same-type
transitions cost `0`. -/
theorem single_surgeon_unit_row_and_zero_setup (typeS : Nat → Nat)
    (setupRand : Nat → Nat → Nat) :
    surgeon_eligibility_matrix 1 3 = [[1, 1, 1]]
    ∧ TD_matrix typeS (surgeon_eligibility_matrix 1 3) true setupRand 3 4
        = [[0, 0, 0], [0, 0, 0], [0, 0, 0]] := by
  constructor
  · decide
  · have hty : ∀ o, o < 3 →
        type_by_operation typeS (surgeon_eligibility_matrix 1 3) o
          = (typeS 0 : Int) := by
      intro o ho
      have h := type_by_operation_mod typeS 1 3 o (le_refl 1) ho
      simpa [Nat.mod_one] using h
    simp only [TD_matrix]
    rw [show List.range 3 = [0, 1, 2] from rfl]
    simp only [List.map_cons, List.map_nil]
    rw [hty 0 (by decide), hty 1 (by decide), hty 2 (by decide)]
    simp [lookup_transition_self]

/-- C9: `generate_multiple_instances` with no output directory fails with the
invalid-argument error before any generation work (the result is the same
error for every randomness oracle and configuration), and with any directory
it produces exactly `n` generated instances. -/
theorem generate_multiple_instances_error_handling (r : Nat → Randomness)
    (all_rooms_available enable_surgeon_schedule enable_setup_times : Bool)
    (nb_operations nb_surgeons nb_rooms n : Nat) :
    generate_multiple_instances r all_rooms_available enable_surgeon_schedule
        enable_setup_times nb_operations nb_surgeons nb_rooms n none
      = Except.error "An output folder path must be specified."
    ∧ ∀ folder : String, ∃ files,
        generate_multiple_instances r all_rooms_available enable_surgeon_schedule
            enable_setup_times nb_operations nb_surgeons nb_rooms n (some folder)
          = Except.ok files ∧ files.length = n := by
  refine ⟨rfl, fun folder => ⟨_, rfl, ?_⟩⟩
  simp

/-- C10: with the round-robin eligibility matrix, any two operations that are
congruent modulo the surgeon count share their assigned surgeon's specialty,
so their setup time `TD[o1][o2]` is `0` even with setup times enabled — not
only the diagonal. -/
theorem setup_time_zero_for_congruent_operations (typeS : Nat → Nat)
    (setupRand : Nat → Nat → Nat) (enable_setup_times : Bool)
    (nb_surgeons nb_operations nb_types : Nat) (hS : 1 ≤ nb_surgeons)
    (o1 o2 : Nat) (h1 : o1 < nb_operations) (h2 : o2 < nb_operations)
    (hmod : o1 % nb_surgeons = o2 % nb_surgeons) :
    ((TD_matrix typeS (surgeon_eligibility_matrix nb_surgeons nb_operations)
        enable_setup_times setupRand nb_operations nb_types).getD o1 []).getD o2 0
      = 0 := by
  simp only [TD_matrix]
  rw [getD_map_range _ _ _ h1, getD_map_range _ _ _ h2,
    type_by_operation_mod typeS nb_surgeons nb_operations o1 hS h1,
    type_by_operation_mod typeS nb_surgeons nb_operations o2 hS h2,
    hmod]
  exact lookup_transition_self _ _ _ _

/-- Witness for C10: operations `1` and `3` with two surgeons (both assigned
surgeon `1`) and setup times enabled. -/
theorem setup_time_zero_for_congruent_operations_witness :
    ((TD_matrix (fun c => c) (surgeon_eligibility_matrix 2 5) true
        (fun _ _ => 7) 5 4).getD 1 []).getD 3 0 = 0 :=
  setup_time_zero_for_congruent_operations (fun c => c) (fun _ _ => 7) true 2 5 4
    (by decide) 1 3 (by decide) (by decide) (by decide)
